import Mathlib

/-
Verification of the jarvis browser-automation repository: a shallow embedding of
its element-resolution strategy catalogs, adaptive retry manager, retry
decorators, circuit breaker, multi-agent orchestration loop and notification
manager, together with theorems settling the specification claims about them.

Python floats (timestamps, delays) are modelled as rationals; Python exceptions
are modelled with `Except`; the nondeterministic collaborators (LLM agents,
browser, strategy implementations) are modelled as oracle functions that the
theorems quantify over.
-/

namespace Jarvis

/-! Element-resolution strategy catalogs.

Embeds `AdaptiveRetryManager._get_strategies_for_target` and
`AdaptiveRetryManager._looks_like_selector`
(src/playwright_agent/core/adaptive_retry.py), and the strategy cascade of
`smart_click`
(src/browser_controlling_agent/src/browser_agent/tools/interactions.py). -/

/-- Characters that make `AdaptiveRetryManager._looks_like_selector` treat the
target as a CSS selector. -/
def selector_chars : List Char := ['.', '#', '[', ']', '>', '~', '+', ':']

/-- Embedding of `AdaptiveRetryManager._looks_like_selector`
(`any(char in text for char in selector_chars)`; membership of a single
character is membership in the character sequence). -/
def looks_like_selector (text : String) : Bool :=
  selector_chars.any fun c => text.data.contains c

/-- Embedding of `AdaptiveRetryManager._get_strategies_for_target`: the ordered
strategy catalog (by the `name` field of each `RetryStrategy`), built exactly as
the sequence of `strategies.append` calls in the source. -/
def get_strategies_for_target (target : String) (action_type : String) : List String :=
  (if looks_like_selector target then ["CSS Selector"] else []) ++
  ["Exact Text Match", "Partial Text Match"] ++
  (if action_type = "click" then ["Role-based (button)", "Role-based (link)"] else []) ++
  ["ARIA Label"] ++
  (if action_type = "type" then ["Placeholder"] else []) ++
  ["XPath"]

/-- The location strategies attempted by `smart_click`, in source order:
CSS selector (strategy 1), exact text XPath (strategy 2), partial text XPath
`contains(text(), ...)` (strategy 3), link text (strategy 4), and the attribute
XPath probes of strategy 5. -/
inductive ClickStrategy where
  | cssSelector
  | exactText
  | partialText
  | linkText
  | attrProbe (attr : String)
  deriving DecidableEq, Repr

/-- Characters that make `smart_click` try the target as a CSS selector first
(`any(char in text_or_selector for char in ['.', '#', '[', ']', '>'])`). -/
def smart_click_selector_chars : List Char := ['.', '#', '[', ']', '>']

/-- The CSS-selector guard of `smart_click` strategy 1. -/
def smart_click_is_selector (text_or_selector : String) : Bool :=
  smart_click_selector_chars.any fun c => text_or_selector.data.contains c

/-- The fixed attribute order of `smart_click` strategy 5:
`for attr in ['aria-label', 'title', 'alt', 'placeholder']`. -/
def smart_click_attr_order : List String := ["aria-label", "title", "alt", "placeholder"]

/-- The ordered list of strategies `smart_click` attempts for a given target
(each is tried only while no element has been found yet, so this list is the
attempt order). -/
def smart_click_strategies (text_or_selector : String) : List ClickStrategy :=
  (if smart_click_is_selector text_or_selector then [ClickStrategy.cssSelector] else []) ++
  [ClickStrategy.exactText, ClickStrategy.partialText, ClickStrategy.linkText] ++
  smart_click_attr_order.map ClickStrategy.attrProbe

/-- Whether a `smart_click` strategy locates elements by substring containment
over rendered text: only the partial-text strategy builds a
`//*[contains(text(), ...)]` XPath in the source. -/
def uses_text_containment : ClickStrategy → Bool
  | ClickStrategy.partialText => true
  | _ => false

/-! Adaptive retry manager: `AdaptiveRetryManager.find_element`
(src/playwright_agent/core/adaptive_retry.py). The per-strategy
`implementation` coroutines are modelled by an oracle giving each strategy's
outcome: raise an exception, return a falsy element, or return an element. -/

/-- Outcome of one strategy implementation call inside `find_element`. -/
inductive StratOutcome where
  | raises
  | falsy
  | found
  deriving DecidableEq, Repr

/-- The exception raised when every strategy failed, carrying the data
interpolated into its message: `len(strategies)` and
`', '.join(self.attempted_strategies)`. -/
structure ResolutionError where
  num_strategies : Nat
  attempted_names : List String
  deriving DecidableEq, Repr

/-- The mutable instance state of `AdaptiveRetryManager`, set in `__init__` and
updated (never reset) by `find_element`. -/
structure RetryManagerState where
  attempted_strategies : List String
  successful_strategies : List String
  failed_strategies : List String
  deriving DecidableEq, Repr

/-- State of a freshly constructed `AdaptiveRetryManager`. -/
def initial_manager : RetryManagerState := ⟨[], [], []⟩

/-- The `for strategy in strategies` loop of `find_element`: the strategy name
is appended to `attempted_strategies` before the implementation runs; an
exception appends to `failed_strategies` and continues; a truthy element
appends to `successful_strategies` and returns; a falsy element just
continues. -/
def find_element_loop (impl : String → StratOutcome) :
    List String → RetryManagerState → Option String × RetryManagerState
  | [], st => (none, st)
  | name :: rest, st =>
    let st1 : RetryManagerState :=
      ⟨st.attempted_strategies ++ [name], st.successful_strategies, st.failed_strategies⟩
    match impl name with
    | StratOutcome.found =>
        (some name,
         ⟨st1.attempted_strategies, st1.successful_strategies ++ [name], st1.failed_strategies⟩)
    | StratOutcome.raises =>
        find_element_loop impl rest
          ⟨st1.attempted_strategies, st1.successful_strategies, st1.failed_strategies ++ [name]⟩
    | StratOutcome.falsy => find_element_loop impl rest st1

/-- Embedding of `AdaptiveRetryManager.find_element`: builds the catalog with
`_get_strategies_for_target`, runs the loop, and on exhaustion raises the
error whose message interpolates `len(strategies)` and the (instance-level)
`attempted_strategies` list. -/
def find_element (st : RetryManagerState) (target action_type : String)
    (impl : String → StratOutcome) : Except ResolutionError String × RetryManagerState :=
  let strategies := get_strategies_for_target target action_type
  match find_element_loop impl strategies st with
  | (some el, st') => (Except.ok el, st')
  | (none, st') => (Except.error ⟨strategies.length, st'.attempted_strategies⟩, st')

/-! Circuit breaker: class `CircuitBreaker`
(src/browser_controlling_agent/src/browser_agent/error_handling.py).
Timestamps are rationals; the state field keeps the source's string values
"closed", "open", "half-open". -/

/-- The instance attributes of `CircuitBreaker`. -/
structure CircuitBreaker where
  failure_threshold : Nat
  recovery_timeout : ℚ
  failure_count : Nat
  last_failure_time : Option ℚ
  state : String
  deriving DecidableEq, Repr

/-- Embedding of `CircuitBreaker.__init__`. -/
def circuit_breaker_init (failure_threshold : Nat) (recovery_timeout : ℚ) : CircuitBreaker :=
  ⟨failure_threshold, recovery_timeout, 0, none, "closed"⟩

/-- Python truthiness of the `last_failure_time` attribute (`None` and `0.0`
are falsy). -/
def py_truthy_time : Option ℚ → Bool
  | none => false
  | some t => t != 0

/-- The guard `self.last_failure_time and (time.time() - self.last_failure_time)
> self.recovery_timeout` evaluated at time `now`. -/
def recovery_due (cb : CircuitBreaker) (now : ℚ) : Bool :=
  py_truthy_time cb.last_failure_time &&
    decide (now - cb.last_failure_time.getD 0 > cb.recovery_timeout)

/-- Embedding of `CircuitBreaker._on_success`. -/
def on_success (cb : CircuitBreaker) : CircuitBreaker :=
  ⟨cb.failure_threshold, cb.recovery_timeout, 0, cb.last_failure_time, "closed"⟩

/-- Embedding of `CircuitBreaker._on_failure` at time `now`. -/
def on_failure (cb : CircuitBreaker) (now : ℚ) : CircuitBreaker :=
  let cb1 : CircuitBreaker :=
    ⟨cb.failure_threshold, cb.recovery_timeout, cb.failure_count + 1, some now, cb.state⟩
  if cb1.failure_count ≥ cb1.failure_threshold then
    ⟨cb1.failure_threshold, cb1.recovery_timeout, cb1.failure_count, cb1.last_failure_time, "open"⟩
  else cb1

/-- Observable result of one wrapped call: whether the wrapped operation was
invoked, whether the dedicated circuit-open error was raised, whether the
operation itself failed (and was re-raised), and the sequence of values
assigned to `self.state` during the call, in order. -/
structure CallResult where
  invoked : Bool
  raised_circuit_open : Bool
  op_failed : Bool
  state_trace : List String
  deriving DecidableEq, Repr

/-- The `try: result = func(...)` part of the wrapper: invoke the operation,
then `_on_success` or `_on_failure` (re-raising). -/
def invoke_op (cb : CircuitBreaker) (now : ℚ) (op_succeeds : Bool) :
    CallResult × CircuitBreaker :=
  if op_succeeds then
    (⟨true, false, false, ["closed"]⟩, on_success cb)
  else
    (⟨true, false, true,
       if cb.failure_count + 1 ≥ cb.failure_threshold then ["open"] else []⟩,
     on_failure cb now)

/-- Embedding of the wrapper returned by `CircuitBreaker.__call__`, for one
call at time `now` to an operation whose outcome is `op_succeeds`. -/
def circuit_call (cb : CircuitBreaker) (now : ℚ) (op_succeeds : Bool) :
    CallResult × CircuitBreaker :=
  if cb.state = "open" then
    if recovery_due cb now then
      let cb1 : CircuitBreaker :=
        ⟨cb.failure_threshold, cb.recovery_timeout, cb.failure_count,
         cb.last_failure_time, "half-open"⟩
      let r := invoke_op cb1 now op_succeeds
      (⟨r.1.invoked, r.1.raised_circuit_open, r.1.op_failed, "half-open" :: r.1.state_trace⟩, r.2)
    else
      (⟨false, true, false, []⟩, cb)
  else
    invoke_op cb now op_succeeds

/-- Fold a sequence of wrapped calls `(time, operation outcome)` over the
breaker. -/
def circuit_run (cb : CircuitBreaker) : List (ℚ × Bool) → CircuitBreaker
  | [] => cb
  | (now, oc) :: rest => circuit_run (circuit_call cb now oc).2 rest

/-- Concatenated trace of every `self.state` assignment over a sequence of
wrapped calls. -/
def circuit_run_trace (cb : CircuitBreaker) : List (ℚ × Bool) → List String
  | [] => []
  | (now, oc) :: rest =>
    (circuit_call cb now oc).1.state_trace ++ circuit_run_trace (circuit_call cb now oc).2 rest

/-- A sequence of consecutive failing wrapped calls at the given times. -/
def circuit_fail_seq (cb : CircuitBreaker) (times : List ℚ) : CircuitBreaker :=
  circuit_run cb (times.map fun t => (t, false))

/-- Adjacent-pair property: the state trace never shows "closed" assigned
directly after "open". -/
def no_open_to_closed (states : List String) : Prop :=
  List.Chain' (fun a b => ¬(a = "open" ∧ b = "closed")) states

/-! Retry decorators: `RetryConfig`, `with_retry`, `with_async_retry`
(src/browser_controlling_agent/src/browser_agent/error_handling.py).
The Python exception-class hierarchy relevant to the call sites is embedded so
that the `except exceptions as e` matching is faithful to `isinstance`. -/

/-- The Python exception classes appearing in the retry decorators' `exceptions`
tuples at the call sites, and the repository's own hierarchy rooted at
`BrowserAgentError(Exception)`. -/
inductive PyExc where
  | pyException
  | browserAgentError
  | elementNotFoundError
  | searchError
  | navigationError
  | webDriverException
  deriving DecidableEq, Repr, BEq

/-- Proper ancestor classes of each exception class (`class X(Y)` chains from
error_handling.py; `WebDriverException` is Selenium's, a direct `Exception`
subclass). -/
def exc_ancestors : PyExc → List PyExc
  | PyExc.pyException => []
  | PyExc.browserAgentError => [PyExc.pyException]
  | PyExc.elementNotFoundError => [PyExc.browserAgentError, PyExc.pyException]
  | PyExc.searchError => [PyExc.browserAgentError, PyExc.pyException]
  | PyExc.navigationError => [PyExc.browserAgentError, PyExc.pyException]
  | PyExc.webDriverException => [PyExc.pyException]

/-- Python `isinstance(e, c)` for an instance of class `e`. -/
def is_instance_of (e c : PyExc) : Bool :=
  e == c || (exc_ancestors e).contains c

/-- Whether `except exceptions as e` catches `e` for the given tuple. -/
def matches_exc_tuple (e : PyExc) (tup : List PyExc) : Bool :=
  tup.any (is_instance_of e)

/-- Embedding of the dataclass `RetryConfig`. -/
structure RetryConfig where
  max_attempts : Nat
  base_delay : ℚ
  max_delay : ℚ
  exponential_base : ℚ
  jitter : Bool
  deriving DecidableEq, Repr

/-- The dataclass defaults `RetryConfig()`. -/
def default_retry_config : RetryConfig := ⟨3, 1, 30, 2, true⟩

/-- The config `RetryConfig(max_attempts=3, base_delay=2.0)` passed at
tools/search.py:49, search_engines.py:74 and tools.py:35. -/
def search_retry_config : RetryConfig := ⟨3, 2, 30, 2, true⟩

/-- The config `RetryConfig(max_attempts=2, base_delay=1.0)` passed at
tools/navigation.py:26 and tools.py:220. -/
def navigation_retry_config : RetryConfig := ⟨2, 1, 30, 2, true⟩

/-- The `exceptions` tuple `(Exception,)` passed at tools/search.py:49,
search_engines.py:74, navigation.py:26 and tools.py:35. -/
def catch_all_exceptions : List PyExc := [PyExc.pyException]

/-- The `exceptions` tuple `(WebDriverException,)` passed at tools.py:220. -/
def webdriver_exceptions : List PyExc := [PyExc.webDriverException]

/-- Python's `random.uniform(a, b)`: `a + (b - a) * u` for a unit draw `u` from
the seeded generator. -/
def uniform_draw (a b u : ℚ) : ℚ := a + (b - a) * u

/-- Embedding of `RetryConfig.get_delay` for 0-indexed `attempt`, where `u` is
the unit random draw consumed by `random.uniform` on this call:
exponential backoff capped at `max_delay`, optional ±25% jitter, clamped to be
non-negative. -/
def get_delay (cfg : RetryConfig) (u : ℚ) (attempt : Nat) : ℚ :=
  let delay := min (cfg.base_delay * cfg.exponential_base ^ attempt) cfg.max_delay
  let delay2 :=
    if cfg.jitter then
      let jitter_range := delay * (1 / 4)
      delay + uniform_draw (-jitter_range) jitter_range u
    else delay
  max 0 delay2

/-- Backoff formula written from the specification's words: delay equals
`min(baseDelay * multiplier^attemptIndex, maxDelay)` plus jitter (a ±25% draw),
clamped to be at least 0. Kept separate from `get_delay` (which is translated
from the source) so the two can be compared. -/
def spec_backoff_delay (cfg : RetryConfig) (u : ℚ) (attempt : Nat) : ℚ :=
  let base := min (cfg.base_delay * cfg.exponential_base ^ attempt) cfg.max_delay
  let jitter := if cfg.jitter then -(base * (1 / 4)) + (base * (1 / 4) - -(base * (1 / 4))) * u else 0
  max 0 (base + jitter)

/-- Observable run of a retry-decorated call: the returned value or the
(re)raised exception (`none` models `raise None` when the loop body never ran),
the number of times the wrapped operation was invoked, and the sequence of
delays slept between attempts. -/
structure RetryRun (α : Type) where
  result : Except (Option PyExc) α
  attempts_made : Nat
  delays : List ℚ
  deriving Repr

/-- The `for attempt in range(max_attempts)` loop of the synchronous `with_retry`
wrapper; `op` gives each attempt's outcome, `urand` the unit random draw
consumed by the jitter of the sleep after that attempt; fuel counts the
remaining loop passes (`fuel = 0` inside a pass means this is the last
attempt, whose failure breaks out and re-raises). An exception not matching
the tuple propagates uncaught. -/
def with_retry_loop {α : Type} (cfg : RetryConfig) (exceptions : List PyExc)
    (op : Nat → Except PyExc α) (urand : Nat → ℚ) : Nat → Nat → RetryRun α
  | 0, _ => ⟨Except.error none, 0, []⟩
  | fuel + 1, attempt =>
    match op attempt with
    | Except.ok v => ⟨Except.ok v, 1, []⟩
    | Except.error e =>
      if matches_exc_tuple e exceptions then
        if fuel = 0 then ⟨Except.error (some e), 1, []⟩
        else
          let d := get_delay cfg (urand attempt) attempt
          let r := with_retry_loop cfg exceptions op urand fuel (attempt + 1)
          ⟨r.result, r.attempts_made + 1, d :: r.delays⟩
      else ⟨Except.error (some e), 1, []⟩

/-- Embedding of one call to a function decorated with
`with_retry(cfg, exceptions)` (synchronous: delays are `time.sleep`s). -/
def with_retry_run {α : Type} (cfg : RetryConfig) (exceptions : List PyExc)
    (op : Nat → Except PyExc α) (urand : Nat → ℚ) : RetryRun α :=
  with_retry_loop cfg exceptions op urand cfg.max_attempts 0

/-- The `for attempt in range(max_attempts)` loop of the asynchronous
`with_async_retry` wrapper, translated separately from its own source; the
delays are `asyncio.sleep` awaits. -/
def with_async_retry_loop {α : Type} (cfg : RetryConfig) (exceptions : List PyExc)
    (op : Nat → Except PyExc α) (urand : Nat → ℚ) : Nat → Nat → RetryRun α
  | 0, _ => ⟨Except.error none, 0, []⟩
  | fuel + 1, attempt =>
    match op attempt with
    | Except.ok v => ⟨Except.ok v, 1, []⟩
    | Except.error e =>
      if matches_exc_tuple e exceptions then
        if fuel = 0 then ⟨Except.error (some e), 1, []⟩
        else
          let d := get_delay cfg (urand attempt) attempt
          let r := with_async_retry_loop cfg exceptions op urand fuel (attempt + 1)
          ⟨r.result, r.attempts_made + 1, d :: r.delays⟩
      else ⟨Except.error (some e), 1, []⟩

/-- Embedding of one call to a function decorated with
`with_async_retry(cfg, exceptions)`. -/
def with_async_retry_run {α : Type} (cfg : RetryConfig) (exceptions : List PyExc)
    (op : Nat → Except PyExc α) (urand : Nat → ℚ) : RetryRun α :=
  with_async_retry_loop cfg exceptions op urand cfg.max_attempts 0

/-! Multi-agent orchestration: `AgentOrchestrator._run_multi_agent`,
`run_planner`, `run_browser_agent`, `run_critique`
(src/browser_controlling_agent/src/browser_agent/orchestrator.py). The three
LLM collaborators are modelled as oracle functions of the data the source
interpolates into their prompts; `run_planner` and `run_critique` re-raise
collaborator exceptions while `run_browser_agent` swallows them and returns an
error message string. -/

/-- Pydantic model `PlannerOutput` (fields used by the loop). -/
structure PlannerOutput where
  plan : String
  next_step : String
  deriving DecidableEq, Repr

/-- Pydantic model `CritiqueOutput`. -/
structure CritiqueOutput where
  feedback : String
  terminate : Bool
  final_response : String
  missing_information : String
  deriving DecidableEq, Repr

/-- Oracles for the three collaborators. The planner sees the iteration
counter, feedback and missing-info; the browser agent sees the iteration, plan
and current step; the critique sees the iteration, current step, original
plan, tool response and the `At Max Iterations` flag. An `Except.error` models
the underlying agent call raising. -/
structure Collaborators where
  planner : Nat → Option String → Option String → Except String PlannerOutput
  browser : Nat → String → String → Except String String
  critique : Nat → String → String → String → Bool → Except String CritiqueOutput

/-- Python `s or default` for strings (empty string is falsy). -/
def py_or (s default : String) : String := if s = "" then default else s

/-- Python f-string interpolation of an optional string (None prints "None"). -/
def py_opt_str : Option String → String
  | none => "None"
  | some s => s

/-- Python falsiness of an optional string (`None` and `""`). -/
def py_falsy_opt : Option String → Bool
  | none => true
  | some s => s == ""

/-- Python `opt or default` for an optional string. -/
def py_or_opt (s : Option String) (default : String) : String :=
  match s with
  | none => default
  | some v => if v = "" then default else v

/-- Embedding of `AgentOrchestrator.run_browser_agent`: a raising browser call
is caught and its message returned as the tool response. -/
def run_browser_agent (c : Collaborators) (iteration : Nat) (plan current_step : String) :
    String :=
  match c.browser iteration plan current_step with
  | Except.ok r => r
  | Except.error e => "Browser agent execution failed: " ++ e

/-- How the main orchestration loop ended: a critique decision terminated it
with its `final_response`, or the iteration cap was reached. -/
inductive LoopExit where
  | terminated (final_response : String)
  | exhausted
  deriving DecidableEq, Repr

/-- Result of the main `while` loop: exit kind (or propagated exception), the
number of Plan/Act/Critique iterations entered, and the final values of the
`feedback` and `self.current_plan` variables. -/
structure LoopRes where
  exit : Except String LoopExit
  iterations : Nat
  feedback : Option String
  current_plan : Option String
  deriving Repr

/-- One pass of the orchestration body at (already incremented) iteration
counter `it`: run the planner (re-raising on error), store the plan when
`not self.current_plan or self.iteration_counter == 1`, run the browser agent
(absorbing its errors into the tool response), and run the critique
(re-raising on error) with the `at_max_iterations` flag
`iteration_counter >= max_iterations`. An error carries the value of
`self.current_plan` at raise time; success carries the critique output and
the updated plan. -/
def orch_iteration (c : Collaborators) (max_iterations it : Nat)
    (fb misi plan : Option String) :
    Except (String × Option String) (CritiqueOutput × Option String) :=
  match c.planner it fb misi with
  | Except.error e => Except.error (e, plan)
  | Except.ok po =>
    let plan1 := if py_falsy_opt plan || it == 1 then some po.plan else plan
    let tool_response := run_browser_agent c it po.plan po.next_step
    match c.critique it po.next_step po.plan tool_response (decide (it ≥ max_iterations)) with
    | Except.error e => Except.error (e, plan1)
    | Except.ok co => Except.ok (co, plan1)

/-- Embedding of the loop
`while not self.terminate and self.iteration_counter < self.max_iterations`.
Arguments after `max_iterations`: remaining loop passes (fuel,
`= max_iterations - iteration`), the iteration counter, the `feedback` and
`missing_info` variables, and `self.current_plan`. Each pass increments the
counter, runs one `orch_iteration`, updates feedback and missing info, and
stops if the critique says terminate; collaborator exceptions propagate. -/
def orch_loop (c : Collaborators) (max_iterations : Nat) :
    Nat → Nat → Option String → Option String → Option String → LoopRes
  | 0, _, fb, _, plan => ⟨Except.ok LoopExit.exhausted, 0, fb, plan⟩
  | fuel + 1, iteration, fb, misi, plan =>
    match orch_iteration c max_iterations (iteration + 1) fb misi plan with
    | Except.error ep => ⟨Except.error ep.1, 1, fb, ep.2⟩
    | Except.ok cp =>
      if cp.1.terminate then
        ⟨Except.ok (LoopExit.terminated cp.1.final_response), 1, some cp.1.feedback, cp.2⟩
      else
        let r := orch_loop c max_iterations fuel (iteration + 1) (some cp.1.feedback)
          (some cp.1.missing_information) cp.2
        ⟨r.exit, r.iterations + 1, r.feedback, r.current_plan⟩

/-- The `tool_response` argument of the forced final critique call:
`f"Max iterations ({max_iterations}) reached. Provide answer with available
information."`. -/
def forced_tool_response (max_iterations : Nat) : String :=
  "Max iterations (" ++ toString max_iterations ++ ") reached. Provide answer with available information."

/-- The synthesized incomplete-task message: `f"Task did not complete within
{max_iterations} iterations. Last feedback: {feedback}"`. -/
def synthesized_fallback (max_iterations : Nat) (fb : Option String) : String :=
  "Task did not complete within " ++ toString max_iterations ++
    " iterations. Last feedback: " ++ py_opt_str fb

/-- Observable outcome of `_run_multi_agent`: the returned response or
propagated exception, the number of loop iterations entered, whether the
forced max-iterations critique was invoked, the `at_max_iterations` flag it
received, and its output. -/
structure OrchResult where
  result : Except String String
  iterations : Nat
  forced_critique : Bool
  forced_flag : Option Bool
  forced_output : Option CritiqueOutput
  deriving Repr

/-- Embedding of `AgentOrchestrator._run_multi_agent` on a fresh orchestrator
(`iteration_counter = 0`, `terminate = False`, `current_plan = None`): run the
main loop; if it exhausted the iteration cap without a terminating critique,
run one forced critique (current step "Max iterations reached", plan
`self.current_plan or "No plan available"`), falling back to the synthesized
message when its `final_response` is empty; finally
`return final_response or "Task completed but no final response generated"`.
Collaborator exceptions from planner or critique propagate out. -/
def run_multi_agent (c : Collaborators) (max_iterations : Nat) : OrchResult :=
  let r := orch_loop c max_iterations max_iterations 0 none none none
  match r.exit with
  | Except.error e => ⟨Except.error e, r.iterations, false, none, none⟩
  | Except.ok (LoopExit.terminated fr) =>
    ⟨Except.ok (py_or fr "Task completed but no final response generated"),
     r.iterations, false, none, none⟩
  | Except.ok LoopExit.exhausted =>
    let flag := decide (r.iterations ≥ max_iterations)
    match c.critique r.iterations "Max iterations reached"
        (py_or_opt r.current_plan "No plan available")
        (forced_tool_response max_iterations) flag with
    | Except.error e => ⟨Except.error e, r.iterations, true, some flag, none⟩
    | Except.ok co =>
      let fr := py_or co.final_response (synthesized_fallback max_iterations r.feedback)
      ⟨Except.ok (py_or fr "Task completed but no final response generated"),
       r.iterations, true, some flag, some co⟩

/-! Notification manager: `NotificationManager.notify`
(src/browser_controlling_agent/src/browser_agent/utils/notification.py).
Listeners are modelled as functions from the notification dict to an
exception-or-unit outcome. -/

/-- The notification dict `{"message": ..., "type": ...}`. -/
structure PyNotification where
  message : String
  msg_type : String
  deriving DecidableEq, Repr

/-- Observable events of one `notify` call: listener number `index` was
invoked (recording whether it raised, in which case the error is printed and
swallowed), or the console fallback line was printed. -/
inductive NotifyEvent where
  | listener_called (index : Nat) (raised : Bool)
  | console_fallback (line : String)
  deriving DecidableEq, Repr

/-- Whether a listener raises on the given notification. -/
def listener_raises (l : PyNotification → Except String Unit) (n : PyNotification) : Bool :=
  match l n with
  | Except.ok _ => false
  | Except.error _ => true

/-- The `for listener in self.listeners` loop with its per-listener
`try/except Exception`. -/
def notify_go (notification : PyNotification) :
    List (PyNotification → Except String Unit) → Nat → List NotifyEvent
  | [], _ => []
  | l :: rest, i =>
    NotifyEvent.listener_called i (listener_raises l notification) ::
      notify_go notification rest (i + 1)

/-- Embedding of `NotificationManager.notify`: builds the notification dict,
dispatches to every registered listener (each wrapped in `try/except` that
prints and continues), or prints the console fallback when no listeners are
registered. An `Except.error` result would model an exception escaping
`notify`. -/
def notify (listeners : List (PyNotification → Except String Unit))
    (message msg_type : String) : Except String (List NotifyEvent) :=
  let notification : PyNotification := ⟨message, msg_type⟩
  if listeners.isEmpty then
    Except.ok [NotifyEvent.console_fallback ("[" ++ msg_type.toUpper ++ "] " ++ message)]
  else
    Except.ok (notify_go notification listeners 0)

/-! Concrete collaborator assignments used to exercise the orchestrator on
closed inputs. -/

/-- Collaborators that never fail and whose critique never terminates and
always returns an empty `final_response`. -/
def never_terminating_collabs : Collaborators :=
  ⟨fun _ _ _ => Except.ok ⟨"plan", "step"⟩,
   fun _ _ _ => Except.ok "done",
   fun _ _ _ _ _ => Except.ok ⟨"fb", false, "", "missing"⟩⟩

/-- Collaborators whose browser (Act) call always raises while planner and
critique always succeed (critique never terminating). -/
def act_failing_collabs : Collaborators :=
  ⟨fun _ _ _ => Except.ok ⟨"plan", "step"⟩,
   fun _ _ _ => Except.error "boom",
   fun _ _ _ _ _ => Except.ok ⟨"fb", false, "", "missing"⟩⟩

/-- Collaborators whose planner call always raises. -/
def plan_failing_collabs : Collaborators :=
  ⟨fun _ _ _ => Except.error "planner agent failed",
   fun _ _ _ => Except.ok "done",
   fun _ _ _ _ _ => Except.ok ⟨"fb", false, "", "missing"⟩⟩

/-- A strategy-implementation oracle under which every strategy raises. -/
def all_raise_impl : String → StratOutcome := fun _ => StratOutcome.raises

/-- An operation that raises `ElementNotFoundError` on every attempt. -/
def enf_raising_op : Nat → Except PyExc String :=
  fun _ => Except.error PyExc.elementNotFoundError

/-- A fixed-seed unit random draw stream, every draw 1/2 (zero jitter). -/
def half_unit_draws : Nat → ℚ := fun _ => 1 / 2

/-! Theorems. -/

/-- C1 counterexample: for the non-selector-like click target "Downloads",
`smart_click` tries its substring-containment strategy (the partial-text
`contains(text(), ...)` XPath) second, before every attribute probe, and the
last strategy it tries is the `placeholder` attribute probe, which is not a
containment strategy — so the broad substring-containment strategy does not
run last (after every attribute probe), contrary to the claim. -/
theorem C1_counterexample :
    smart_click_is_selector "Downloads" = false ∧
    smart_click_strategies "Downloads" =
      [ClickStrategy.exactText, ClickStrategy.partialText, ClickStrategy.linkText,
       ClickStrategy.attrProbe "aria-label", ClickStrategy.attrProbe "title",
       ClickStrategy.attrProbe "alt", ClickStrategy.attrProbe "placeholder"] ∧
    (smart_click_strategies "Downloads").getLast? = some (ClickStrategy.attrProbe "placeholder") ∧
    uses_text_containment (ClickStrategy.attrProbe "placeholder") = false ∧
    List.findIdx uses_text_containment (smart_click_strategies "Downloads") = 1 ∧
    (smart_click_strategies "Downloads").get? 1 = some ClickStrategy.partialText := by
  decide

/-- C1 (amended): for a non-selector-like click target, the Playwright engine
resolves in the order ExactText, PartialText, Role(button), Role(link),
aria-label probe, and the XPath substring-containment strategy last, while
`smart_click` resolves in the order ExactText, PartialText (its substring
containment), LinkText, then the attribute probes aria-label, title, alt,
placeholder in that fixed order with nothing after them; a selector-like
target tries the Structural/CSS strategy first in both. -/
theorem C1_click_strategy_order (t : String)
    (h1 : looks_like_selector t = false)
    (h2 : smart_click_is_selector t = false) :
    get_strategies_for_target t "click" =
      ["Exact Text Match", "Partial Text Match", "Role-based (button)",
       "Role-based (link)", "ARIA Label", "XPath"] ∧
    (get_strategies_for_target t "click").getLast? = some "XPath" ∧
    smart_click_strategies t =
      [ClickStrategy.exactText, ClickStrategy.partialText, ClickStrategy.linkText,
       ClickStrategy.attrProbe "aria-label", ClickStrategy.attrProbe "title",
       ClickStrategy.attrProbe "alt", ClickStrategy.attrProbe "placeholder"] ∧
    (∀ s : String, looks_like_selector s = true →
      (get_strategies_for_target s "click").head? = some "CSS Selector") ∧
    (∀ s : String, smart_click_is_selector s = true →
      (smart_click_strategies s).head? = some ClickStrategy.cssSelector) := by
  refine ⟨?_, ?_, ?_, ?_, ?_⟩
  · simp [get_strategies_for_target, h1]
  · simp [get_strategies_for_target, h1]
  · simp [smart_click_strategies, h2, smart_click_attr_order]
  · intro s hs; simp [get_strategies_for_target, hs]
  · intro s hs; simp [smart_click_strategies, hs]

/-- C1 witness: the amended ordering at the concrete non-selector-like click
target "Downloads". -/
theorem C1_click_strategy_order_witness :
    looks_like_selector "Downloads" = false ∧
    smart_click_is_selector "Downloads" = false ∧
    (get_strategies_for_target "Downloads" "click" =
      ["Exact Text Match", "Partial Text Match", "Role-based (button)",
       "Role-based (link)", "ARIA Label", "XPath"] ∧
    (get_strategies_for_target "Downloads" "click").getLast? = some "XPath" ∧
    smart_click_strategies "Downloads" =
      [ClickStrategy.exactText, ClickStrategy.partialText, ClickStrategy.linkText,
       ClickStrategy.attrProbe "aria-label", ClickStrategy.attrProbe "title",
       ClickStrategy.attrProbe "alt", ClickStrategy.attrProbe "placeholder"] ∧
    (∀ s : String, looks_like_selector s = true →
      (get_strategies_for_target s "click").head? = some "CSS Selector") ∧
    (∀ s : String, smart_click_is_selector s = true →
      (smart_click_strategies s).head? = some ClickStrategy.cssSelector)) :=
  ⟨by decide, by decide, C1_click_strategy_order "Downloads" (by decide) (by decide)⟩

/-- The `find_element` strategy loop, when no implementation ever returns a
truthy element, finds nothing and appends every strategy name of this call to
the instance-level attempted list. -/
theorem find_element_loop_exhaust (impl : String → StratOutcome)
    (h : ∀ s, impl s ≠ StratOutcome.found) :
    ∀ (names : List String) (st : RetryManagerState),
      (find_element_loop impl names st).1 = none ∧
      (find_element_loop impl names st).2.attempted_strategies =
        st.attempted_strategies ++ names := by
  intro names
  induction names with
  | nil => intro st; simp [find_element_loop]
  | cons name rest ih =>
    intro st
    cases himpl : impl name with
    | found => exact absurd himpl (h name)
    | raises =>
      have := ih ⟨st.attempted_strategies ++ [name], st.successful_strategies,
        st.failed_strategies ++ [name]⟩
      simpa [find_element_loop, himpl] using this
    | falsy =>
      have := ih ⟨st.attempted_strategies ++ [name], st.successful_strategies,
        st.failed_strategies⟩
      simpa [find_element_loop, himpl] using this

/-- C2 (amended): for the first `find_element` invocation on a freshly
constructed manager in which no strategy succeeds, the call fails with an
error whose attempted-strategies list is exactly the catalog for the action
type, so its length equals the full catalog size (on later invocations of the
same manager the instance-level list accumulates earlier attempts). -/
theorem C2_exhaustion_first_invocation (target action_type : String)
    (impl : String → StratOutcome) (st : RetryManagerState)
    (hfresh : st.attempted_strategies = [])
    (hfail : ∀ s, impl s ≠ StratOutcome.found) :
    ∃ e : ResolutionError,
      (find_element st target action_type impl).1 = Except.error e ∧
      e.attempted_names = get_strategies_for_target target action_type ∧
      e.attempted_names.length = (get_strategies_for_target target action_type).length ∧
      e.num_strategies = (get_strategies_for_target target action_type).length := by
  obtain ⟨h1, h2⟩ :=
    find_element_loop_exhaust impl hfail (get_strategies_for_target target action_type) st
  rcases hloop : find_element_loop impl (get_strategies_for_target target action_type) st
    with ⟨o, st2⟩
  rw [hloop] at h1 h2
  simp only at h1 h2
  subst h1
  refine ⟨⟨(get_strategies_for_target target action_type).length, st2.attempted_strategies⟩,
    ?_, ?_, ?_, ?_⟩
  · simp only [find_element]
    rw [hloop]
  · rw [h2, hfresh]
    simp
  · rw [h2, hfresh]
    simp
  · simp

/-- C2 witness: concrete first invocation on a fresh manager, every strategy
raising, for the click target "Downloads". -/
theorem C2_exhaustion_first_invocation_witness :
    initial_manager.attempted_strategies = [] ∧
    (∀ s, all_raise_impl s ≠ StratOutcome.found) ∧
    (∃ e : ResolutionError,
      (find_element initial_manager "Downloads" "click" all_raise_impl).1 =
        Except.error e ∧
      e.attempted_names = get_strategies_for_target "Downloads" "click" ∧
      e.attempted_names.length = (get_strategies_for_target "Downloads" "click").length ∧
      e.num_strategies = (get_strategies_for_target "Downloads" "click").length) :=
  ⟨rfl, by intro s; simp [all_raise_impl],
   C2_exhaustion_first_invocation "Downloads" "click" all_raise_impl
     initial_manager rfl (by intro s; simp [all_raise_impl])⟩

/-- C2 counterexample: after a first exhausted invocation, a second exhausted
invocation of the same manager reports an attempted-strategies list of 12
names although the catalog for click has size 6 — the record does not belong
to the single invocation. -/
theorem C2_counterexample :
    (get_strategies_for_target "Downloads" "click").length = 6 ∧
    (find_element
        (find_element initial_manager "Downloads" "click" all_raise_impl).2
        "Downloads" "click" all_raise_impl).1 =
      Except.error ⟨6,
        ["Exact Text Match", "Partial Text Match", "Role-based (button)", "Role-based (link)",
         "ARIA Label", "XPath", "Exact Text Match", "Partial Text Match", "Role-based (button)",
         "Role-based (link)", "ARIA Label", "XPath"]⟩ ∧
    (["Exact Text Match", "Partial Text Match", "Role-based (button)", "Role-based (link)",
      "ARIA Label", "XPath", "Exact Text Match", "Partial Text Match", "Role-based (button)",
      "Role-based (link)", "ARIA Label", "XPath"] : List String).length = 12 := by
  exact ⟨by decide, rfl, by decide⟩

/-- Runs of wrapped calls compose by concatenation of the inputs. -/
theorem circuit_run_append (l1 l2 : List (ℚ × Bool)) :
    ∀ cb : CircuitBreaker, circuit_run cb (l1 ++ l2) = circuit_run (circuit_run cb l1) l2 := by
  induction l1 with
  | nil => intro cb; rfl
  | cons p rest ih =>
    intro cb
    rcases p with ⟨now, oc⟩
    simp [circuit_run, ih]

/-- Failing calls on a closed breaker strictly below the threshold keep it
closed, incrementing the failure count and recording the failure time. -/
theorem circuit_failures_below (t : ℚ) :
    ∀ (n : Nat) (cb : CircuitBreaker), cb.state = "closed" →
      cb.failure_count + n < cb.failure_threshold →
      circuit_run cb (List.replicate n (t, false)) =
        ⟨cb.failure_threshold, cb.recovery_timeout, cb.failure_count + n,
         if n = 0 then cb.last_failure_time else some t, "closed"⟩ := by
  intro n
  induction n with
  | zero =>
    intro cb hstate _
    rcases cb with ⟨thr, T, cnt, lft, st⟩
    simp only at hstate
    subst hstate
    simp [circuit_run]
  | succ m ih =>
    intro cb hstate hlt
    rcases cb with ⟨thr, T, cnt, lft, st⟩
    simp only at hstate hlt
    subst hstate
    have hthr : ¬ (cnt + 1 ≥ thr) := by omega
    have hstep : circuit_call ⟨thr, T, cnt, lft, "closed"⟩ t false =
        (⟨true, false, true, []⟩, ⟨thr, T, cnt + 1, some t, "closed"⟩) := by
      simp [circuit_call, invoke_op, on_failure, hthr]
    rw [List.replicate_succ]
    simp only [circuit_run, hstep]
    have := ih ⟨thr, T, cnt + 1, some t, "closed"⟩ rfl (by simp; omega)
    simp only at this
    rw [this]
    simp
    omega

/-- After exactly `thr ≥ 1` consecutive failing calls at time `t` on a fresh
breaker, the breaker is open with failure count `thr` and last failure time
`t`. -/
theorem circuit_threshold_opens (thr : Nat) (T t : ℚ) (hthr : 1 ≤ thr) :
    circuit_fail_seq (circuit_breaker_init thr T) (List.replicate thr t) =
      ⟨thr, T, thr, some t, "open"⟩ := by
  rcases Nat.exists_eq_succ_of_ne_zero (by omega : thr ≠ 0) with ⟨k, hk⟩
  subst hk
  simp only [Nat.succ_eq_add_one]
  unfold circuit_fail_seq
  rw [List.map_replicate, List.replicate_succ']
  rw [circuit_run_append]
  have hbelow := circuit_failures_below t k (circuit_breaker_init (k + 1) T) rfl
    (by simp only [circuit_breaker_init]; omega)
  simp only [circuit_breaker_init] at hbelow
  simp only [circuit_breaker_init]
  rw [hbelow]
  have hge : 0 + k + 1 ≥ k + 1 := by omega
  simp [circuit_run, circuit_call, invoke_op, on_failure, hge]

/-- C3 (amended): with threshold `thr ≥ 1`, recovery timeout `T ≥ 0` and a
nonzero failure time `t`, after exactly `thr` consecutive failures the state
is open; a call attempted immediately afterwards (elapsed time 0) raises the
circuit-open error without invoking the wrapped operation; once the elapsed
time since the last failure strictly exceeds `T` (the source compares with
strict `>`), the next call is let through in half-open; and a single success
in half-open returns the state to closed with failure count 0. -/
theorem C3_circuit_threshold (thr : Nat) (T t now : ℚ)
    (hthr : 1 ≤ thr) (hT : 0 ≤ T) (ht : t ≠ 0) (hnow : now - t > T) :
    (circuit_fail_seq (circuit_breaker_init thr T) (List.replicate thr t)).state = "open" ∧
    (circuit_fail_seq (circuit_breaker_init thr T) (List.replicate thr t)).failure_count = thr ∧
    (∀ oc : Bool,
      (circuit_call (circuit_fail_seq (circuit_breaker_init thr T) (List.replicate thr t))
          t oc).1.raised_circuit_open = true ∧
      (circuit_call (circuit_fail_seq (circuit_breaker_init thr T) (List.replicate thr t))
          t oc).1.invoked = false) ∧
    (∀ oc : Bool,
      (circuit_call (circuit_fail_seq (circuit_breaker_init thr T) (List.replicate thr t))
          now oc).1.invoked = true ∧
      (circuit_call (circuit_fail_seq (circuit_breaker_init thr T) (List.replicate thr t))
          now oc).1.state_trace.head? = some "half-open") ∧
    (circuit_call (circuit_fail_seq (circuit_breaker_init thr T) (List.replicate thr t))
        now true).2.state = "closed" ∧
    (circuit_call (circuit_fail_seq (circuit_breaker_init thr T) (List.replicate thr t))
        now true).2.failure_count = 0 ∧
    (∀ cb : CircuitBreaker, cb.state = "half-open" →
      (circuit_call cb now true).2.state = "closed" ∧
      (circuit_call cb now true).2.failure_count = 0) := by
  rw [circuit_threshold_opens thr T t hthr]
  have hrec_now : recovery_due ⟨thr, T, thr, some t, "open"⟩ now = true := by
    simp [recovery_due, py_truthy_time]
    exact ⟨ht, hnow⟩
  have hrec_t : recovery_due ⟨thr, T, thr, some t, "open"⟩ t = false := by
    have hTlt : ¬ (T < t - t) := by
      rw [sub_self]
      exact not_lt.mpr hT
    simp [recovery_due, py_truthy_time, hTlt]
    intro _
    exact hT
  refine ⟨rfl, rfl, ?_, ?_, ?_, ?_, ?_⟩
  · intro oc
    simp [circuit_call, hrec_t]
  · intro oc
    cases oc <;> simp [circuit_call, hrec_now, invoke_op, on_success, on_failure]
  · simp [circuit_call, hrec_now, invoke_op, on_success]
  · simp [circuit_call, hrec_now, invoke_op, on_success]
  · intro cb hstate
    rcases cb with ⟨thr2, T2, cnt2, lft2, st2⟩
    simp only at hstate
    subst hstate
    simp [circuit_call, invoke_op, on_success]

/-- C3 witness: threshold 2, recovery timeout 60, failures at time 10, next
call at time 100 (elapsed 90 > 60). -/
theorem C3_circuit_threshold_witness :
    (1 ≤ 2) ∧ ((0 : ℚ) ≤ 60) ∧ ((10 : ℚ) ≠ 0) ∧ ((100 : ℚ) - 10 > 60) ∧
    ((circuit_fail_seq (circuit_breaker_init 2 60) (List.replicate 2 10)).state = "open" ∧
     (circuit_fail_seq (circuit_breaker_init 2 60) (List.replicate 2 10)).failure_count = 2 ∧
     (∀ oc : Bool,
       (circuit_call (circuit_fail_seq (circuit_breaker_init 2 60) (List.replicate 2 10))
           10 oc).1.raised_circuit_open = true ∧
       (circuit_call (circuit_fail_seq (circuit_breaker_init 2 60) (List.replicate 2 10))
           10 oc).1.invoked = false) ∧
     (∀ oc : Bool,
       (circuit_call (circuit_fail_seq (circuit_breaker_init 2 60) (List.replicate 2 10))
           100 oc).1.invoked = true ∧
       (circuit_call (circuit_fail_seq (circuit_breaker_init 2 60) (List.replicate 2 10))
           100 oc).1.state_trace.head? = some "half-open") ∧
     (circuit_call (circuit_fail_seq (circuit_breaker_init 2 60) (List.replicate 2 10))
         100 true).2.state = "closed" ∧
     (circuit_call (circuit_fail_seq (circuit_breaker_init 2 60) (List.replicate 2 10))
         100 true).2.failure_count = 0 ∧
     (∀ cb : CircuitBreaker, cb.state = "half-open" →
       (circuit_call cb 100 true).2.state = "closed" ∧
       (circuit_call cb 100 true).2.failure_count = 0)) :=
  ⟨by decide, by norm_num, by norm_num, by norm_num,
   C3_circuit_threshold 2 60 10 100 (by decide) (by norm_num) (by norm_num) (by norm_num)⟩

/-- C3 counterexample: with threshold 1 and recovery timeout 60, after a
failure at time 10 the breaker is open; a call at time 70 — elapsed time
exactly 60, i.e. the elapsed time has reached the recovery timeout — is NOT
let through in half-open: it raises the circuit-open error without invoking
the wrapped operation and the breaker stays open, because the source compares
with strict `>`. -/
theorem C3_counterexample :
    (circuit_fail_seq (circuit_breaker_init 1 60) [10]).state = "open" ∧
    ((70 : ℚ) - 10 = 60) ∧
    (circuit_call (circuit_fail_seq (circuit_breaker_init 1 60) [10])
        70 true).1.raised_circuit_open = true ∧
    (circuit_call (circuit_fail_seq (circuit_breaker_init 1 60) [10])
        70 true).1.invoked = false ∧
    (circuit_call (circuit_fail_seq (circuit_breaker_init 1 60) [10])
        70 true).2.state = "open" := by
  have hcb : circuit_fail_seq (circuit_breaker_init 1 60) [10] =
      ⟨1, 60, 1, some 10, "open"⟩ := by decide
  have hrec : recovery_due ⟨1, 60, 1, some 10, "open"⟩ 70 = false := by
    norm_num [recovery_due, py_truthy_time]
  rw [hcb]
  refine ⟨rfl, by norm_num, ?_, ?_, ?_⟩ <;> simp [circuit_call, hrec]

/-- Within one wrapped call, the sequence of states — the state on entry
followed by every assignment to `self.state` — never assigns "closed"
directly after "open", and its last element is the state after the call. -/
theorem circuit_call_trace_chain (cb : CircuitBreaker) (now : ℚ) (oc : Bool) :
    no_open_to_closed (cb.state :: (circuit_call cb now oc).1.state_trace) ∧
    (cb.state :: (circuit_call cb now oc).1.state_trace).getLast? =
      some (circuit_call cb now oc).2.state := by
  unfold no_open_to_closed
  by_cases hopen : cb.state = "open"
  · by_cases hrec : recovery_due cb now = true
    · cases oc
      · by_cases hthr : cb.failure_count + 1 ≥ cb.failure_threshold
        · simp [circuit_call, hopen, hrec, invoke_op, on_failure, hthr]
        · simp [circuit_call, hopen, hrec, invoke_op, on_failure, hthr]
      · simp [circuit_call, hopen, hrec, invoke_op, on_success]
    · simp [circuit_call, hopen, hrec]
  · cases oc
    · by_cases hthr : cb.failure_count + 1 ≥ cb.failure_threshold
      · simp [circuit_call, hopen, invoke_op, on_failure, hthr]
      · simp [circuit_call, hopen, invoke_op, on_failure, hthr]
    · simp [circuit_call, hopen, invoke_op, on_success]

/-- C4: over any sequence of wrapped calls from any starting state, the trace
of `self.state` values — entry state followed by every assignment — never
moves directly from "open" to "closed": every reachable open-to-closed path
passes through "half-open". -/
theorem C4_no_open_to_closed (cb : CircuitBreaker) (inputs : List (ℚ × Bool)) :
    no_open_to_closed (cb.state :: circuit_run_trace cb inputs) := by
  induction inputs generalizing cb with
  | nil => simp [circuit_run_trace, no_open_to_closed]
  | cons p rest ih =>
    rcases p with ⟨now, oc⟩
    obtain ⟨h1, h2⟩ := circuit_call_trace_chain cb now oc
    have h3 := ih (circuit_call cb now oc).2
    unfold no_open_to_closed at h1 h3 ⊢
    simp only [circuit_run_trace]
    have hsplit : cb.state :: ((circuit_call cb now oc).1.state_trace ++
        circuit_run_trace (circuit_call cb now oc).2 rest) =
        (cb.state :: (circuit_call cb now oc).1.state_trace) ++
          circuit_run_trace (circuit_call cb now oc).2 rest := rfl
    rw [hsplit, List.chain'_append]
    refine ⟨h1, (List.chain'_cons'.mp h3).2, ?_⟩
    intro x hx y hy
    rw [h2] at hx
    simp only [Option.mem_def, Option.some.injEq] at hx
    subst hx
    exact (List.chain'_cons'.mp h3).1 y hy

/-- When every attempt fails with an exception matching the `exceptions`
tuple, the retry loop performs exactly `fuel` attempts. -/
theorem with_retry_loop_attempts {α : Type} (cfg : RetryConfig) (excs : List PyExc)
    (op : Nat → Except PyExc α) (urand : Nat → ℚ)
    (h : ∀ k, ∃ e, op k = Except.error e ∧ matches_exc_tuple e excs = true) :
    ∀ fuel attempt, 1 ≤ fuel →
      (with_retry_loop cfg excs op urand fuel attempt).attempts_made = fuel := by
  intro fuel
  induction fuel with
  | zero => intro _ hfuel; omega
  | succ f ih =>
    intro attempt _
    obtain ⟨e, he, hm⟩ := h attempt
    by_cases hf : f = 0
    · subst hf
      simp [with_retry_loop, he, hm]
    · have := ih (attempt + 1) (by omega)
      simp [with_retry_loop, he, hm, hf, this]

/-- C5 (amended): an operation failing with `ElementNotFoundError` is caught
and retried like any other exception under the `(Exception,)` tuples used at
the search/navigation call sites — the wrapped operation runs `max_attempts`
times — while under the `(WebDriverException,)` tuple of tools.py:220 the
error does not match, so it propagates after a single attempt with no delays
(it is not retried there). -/
theorem C5_enf_retry_behavior {α : Type} (cfg : RetryConfig)
    (op : Nat → Except PyExc α) (urand : Nat → ℚ)
    (henf : ∀ k, op k = Except.error PyExc.elementNotFoundError)
    (hmax : 1 ≤ cfg.max_attempts) :
    matches_exc_tuple PyExc.elementNotFoundError catch_all_exceptions = true ∧
    (with_retry_run cfg catch_all_exceptions op urand).attempts_made = cfg.max_attempts ∧
    matches_exc_tuple PyExc.elementNotFoundError webdriver_exceptions = false ∧
    (with_retry_run cfg webdriver_exceptions op urand).result =
      Except.error (some PyExc.elementNotFoundError) ∧
    (with_retry_run cfg webdriver_exceptions op urand).attempts_made = 1 ∧
    (with_retry_run cfg webdriver_exceptions op urand).delays = [] := by
  refine ⟨by decide, ?_, by decide, ?_, ?_, ?_⟩
  · exact with_retry_loop_attempts cfg catch_all_exceptions op urand
      (fun k => ⟨PyExc.elementNotFoundError, henf k, by decide⟩) cfg.max_attempts 0 hmax
  all_goals {
    rcases Nat.exists_eq_succ_of_ne_zero (by omega : cfg.max_attempts ≠ 0) with ⟨f, hf⟩
    have hm : matches_exc_tuple PyExc.elementNotFoundError webdriver_exceptions = false := by
      decide
    unfold with_retry_run
    rw [hf]
    simp [with_retry_loop, henf 0, hm]
  }

/-- C5 witness: the concrete search-site configuration and the tools.py:220
webdriver configuration, with an operation that always raises
`ElementNotFoundError`. -/
theorem C5_enf_retry_behavior_witness :
    (∀ k : Nat, enf_raising_op k = Except.error PyExc.elementNotFoundError) ∧
    1 ≤ search_retry_config.max_attempts ∧
    (matches_exc_tuple PyExc.elementNotFoundError catch_all_exceptions = true ∧
     (with_retry_run search_retry_config catch_all_exceptions enf_raising_op
        half_unit_draws).attempts_made = search_retry_config.max_attempts ∧
     matches_exc_tuple PyExc.elementNotFoundError webdriver_exceptions = false ∧
     (with_retry_run search_retry_config webdriver_exceptions enf_raising_op
        half_unit_draws).result = Except.error (some PyExc.elementNotFoundError) ∧
     (with_retry_run search_retry_config webdriver_exceptions enf_raising_op
        half_unit_draws).attempts_made = 1 ∧
     (with_retry_run search_retry_config webdriver_exceptions enf_raising_op
        half_unit_draws).delays = []) :=
  ⟨fun _ => rfl, by decide,
   C5_enf_retry_behavior search_retry_config enf_raising_op half_unit_draws
     (fun _ => rfl) (by decide)⟩

/-- C5 counterexample: at the google_search call site configuration
(`RetryConfig(max_attempts=3, base_delay=2.0)` with exceptions `(Exception,)`),
an operation that always raises `ElementNotFoundError` is attempted 3 times
with 2 backoff sleeps in between — it is retried, not returned immediately. -/
theorem C5_counterexample :
    search_retry_config.max_attempts = 3 ∧
    (with_retry_run search_retry_config catch_all_exceptions enf_raising_op
        half_unit_draws).attempts_made = 3 ∧
    (with_retry_run search_retry_config catch_all_exceptions enf_raising_op
        half_unit_draws).delays.length = 2 ∧
    (with_retry_run search_retry_config catch_all_exceptions enf_raising_op
        half_unit_draws).result = Except.error (some PyExc.elementNotFoundError) := by
  refine ⟨rfl, rfl, rfl, rfl⟩

/-- The synchronous and asynchronous retry loops compute identical results:
they are the same function of the configuration, exception tuple, operation
outcomes and random draws. -/
theorem retry_loops_eq {α : Type} (cfg : RetryConfig) (excs : List PyExc)
    (op : Nat → Except PyExc α) (urand : Nat → ℚ) :
    ∀ fuel attempt, with_retry_loop cfg excs op urand fuel attempt =
      with_async_retry_loop cfg excs op urand fuel attempt := by
  intro fuel
  induction fuel with
  | zero => intro _; rfl
  | succ f ih =>
    intro attempt
    cases he : op attempt with
    | ok v => simp [with_retry_loop, with_async_retry_loop, he]
    | error e =>
      by_cases hm : matches_exc_tuple e excs = true
      · by_cases hf : f = 0
        · subst hf; simp [with_retry_loop, with_async_retry_loop, he, hm]
        · simp [with_retry_loop, with_async_retry_loop, he, hm, hf, ih (attempt + 1)]
      · simp [with_retry_loop, with_async_retry_loop, he, hm]

/-- C6: for every retry configuration, exception tuple, operation and fixed
random draw stream, the synchronous and asynchronous retry executors produce
identical runs — in particular identical delay sequences — and the delay
computation they share equals the specified backoff formula
`max(0, min(baseDelay * multiplier^attemptIndex, maxDelay) + jitter)`. -/
theorem C6_sync_async_identical {α : Type} (cfg : RetryConfig) (excs : List PyExc)
    (op : Nat → Except PyExc α) (urand : Nat → ℚ) :
    (with_retry_run cfg excs op urand).delays =
      (with_async_retry_run cfg excs op urand).delays ∧
    with_retry_run cfg excs op urand = with_async_retry_run cfg excs op urand ∧
    (∀ u : ℚ, ∀ k : Nat, get_delay cfg u k = spec_backoff_delay cfg u k) := by
  have hrun : with_retry_run cfg excs op urand = with_async_retry_run cfg excs op urand :=
    retry_loops_eq cfg excs op urand cfg.max_attempts 0
  refine ⟨by rw [hrun], hrun, ?_⟩
  intro u k
  unfold get_delay spec_backoff_delay uniform_draw
  cases hj : cfg.jitter <;> simp

/-- The orchestration loop enters at most `fuel` iterations. -/
theorem orch_loop_iterations_le (c : Collaborators) (mi : Nat) :
    ∀ fuel iteration fb misi plan,
      (orch_loop c mi fuel iteration fb misi plan).iterations ≤ fuel := by
  intro fuel
  induction fuel with
  | zero => intro _ _ _ _; simp [orch_loop]
  | succ f ih =>
    intro iteration fb misi plan
    cases hi : orch_iteration c mi (iteration + 1) fb misi plan with
    | error ep => simp [orch_loop, hi]
    | ok cp =>
      by_cases ht : cp.1.terminate
      · simp [orch_loop, hi, ht]
      · simp only [orch_loop, hi, ht, Bool.false_eq_true, if_false]
        have := ih (iteration + 1) (some cp.1.feedback) (some cp.1.missing_information) cp.2
        omega

/-- The result of `_run_multi_agent` reports exactly the iterations entered by
the main loop. -/
theorem run_multi_agent_iterations (c : Collaborators) (mi : Nat) :
    (run_multi_agent c mi).iterations = (orch_loop c mi mi 0 none none none).iterations := by
  simp only [run_multi_agent]
  cases hex : (orch_loop c mi mi 0 none none none).exit with
  | error e => rfl
  | ok le =>
    cases le with
    | terminated fr => rfl
    | exhausted =>
      cases hc : c.critique (orch_loop c mi mi 0 none none none).iterations
          "Max iterations reached"
          (py_or_opt (orch_loop c mi mi 0 none none none).current_plan "No plan available")
          (forced_tool_response mi)
          (decide ((orch_loop c mi mi 0 none none none).iterations ≥ mi)) with
      | error e => rfl
      | ok co => rfl

/-- C7: the orchestrator performs at most `max_iterations` Plan/Act/Critique
iterations before forcing termination, whatever the collaborators return. -/
theorem C7_iteration_bound (c : Collaborators) (max_iterations : Nat) :
    (run_multi_agent c max_iterations).iterations ≤ max_iterations := by
  rw [run_multi_agent_iterations]
  exact orch_loop_iterations_le c max_iterations max_iterations 0 none none none

/-- A loop run that exits `exhausted` consumed all of its fuel: the iteration
counter equals `max_iterations` when the cap is hit. -/
theorem orch_loop_exhausted_iterations (c : Collaborators) (mi : Nat) :
    ∀ fuel iteration fb misi plan,
      (orch_loop c mi fuel iteration fb misi plan).exit = Except.ok LoopExit.exhausted →
      (orch_loop c mi fuel iteration fb misi plan).iterations = fuel := by
  intro fuel
  induction fuel with
  | zero => intro _ _ _ _ _; simp [orch_loop]
  | succ f ih =>
    intro iteration fb misi plan hex
    cases hi : orch_iteration c mi (iteration + 1) fb misi plan with
    | error ep =>
      rw [orch_loop] at hex
      rw [hi] at hex
      simp at hex
    | ok cp =>
      by_cases ht : cp.1.terminate
      · rw [orch_loop] at hex
        rw [hi] at hex
        simp [ht] at hex
      · rw [orch_loop] at hex ⊢
        rw [hi] at hex ⊢
        simp [ht] at hex ⊢
        exact ih _ _ _ _ hex

/-- The notify loop produces one `listener_called` event per listener, in
registration order, recording whether that listener raised. -/
theorem notify_go_spec (n : PyNotification) :
    ∀ (ls : List (PyNotification → Except String Unit)) (i : Nat),
      (notify_go n ls i).length = ls.length ∧
      (∀ k : Fin ls.length,
        (notify_go n ls i).get? k.1 =
          some (NotifyEvent.listener_called (i + k.1) (listener_raises (ls.get k) n))) := by
  intro ls
  induction ls with
  | nil =>
    intro i
    refine ⟨rfl, ?_⟩
    intro k
    exact absurd k.2 (by simp)
  | cons l rest ih =>
    intro i
    refine ⟨by simp [notify_go, (ih (i + 1)).1], ?_⟩
    intro k
    rcases k with ⟨kv, hk⟩
    cases kv with
    | zero => simp [notify_go]
    | succ m =>
      have hm : m < rest.length := by simpa using hk
      have hmid := (ih (i + 1)).2 ⟨m, hm⟩
      simp only [notify_go, List.get?_cons_succ]
      rw [hmid]
      have harg : (i + 1) + m = i + (m + 1) := by omega
      rw [harg]
      rfl

/-- C10: `notify` returns normally for every listener list and message — even
when listeners raise, the exception is swallowed — and it invokes each
registered listener exactly once, in order; with no listeners it prints the
console fallback line instead. -/
theorem C10_notify_all_listeners (listeners : List (PyNotification → Except String Unit))
    (message msg_type : String) :
    ∃ evs : List NotifyEvent,
      notify listeners message msg_type = Except.ok evs ∧
      (if listeners.isEmpty then
        evs = [NotifyEvent.console_fallback ("[" ++ msg_type.toUpper ++ "] " ++ message)]
      else
        evs.length = listeners.length ∧
        ∀ k : Fin listeners.length,
          evs.get? k.1 = some (NotifyEvent.listener_called k.1
            (listener_raises (listeners.get k) ⟨message, msg_type⟩))) := by
  by_cases hemp : listeners.isEmpty
  · refine ⟨[NotifyEvent.console_fallback ("[" ++ msg_type.toUpper ++ "] " ++ message)], ?_, ?_⟩
    · simp [notify, hemp]
    · rw [if_pos hemp]
  · refine ⟨notify_go ⟨message, msg_type⟩ listeners 0, ?_, ?_⟩
    · simp [notify, hemp]
    · rw [if_neg hemp]
      obtain ⟨h1, h2⟩ := notify_go_spec ⟨message, msg_type⟩ listeners 0
      refine ⟨h1, ?_⟩
      intro k
      have := h2 k
      simpa using this

/-- The synthesized incomplete-task message is never the empty string. -/
theorem synthesized_fallback_ne_empty (mi : Nat) (fb : Option String) :
    synthesized_fallback mi fb ≠ "" := by
  intro h
  have hlen := congrArg String.length h
  have h1 : ("Task did not complete within " : String).length = 29 := by decide
  have h2 : ("" : String).length = 0 := by decide
  simp only [synthesized_fallback, String.length_append, h1, h2] at hlen
  omega

/-- C8: when the loop exhausts the iteration cap without a terminating
critique decision, the orchestrator issues exactly one forced critique
invocation flagged `at_max_iterations = true` and returns its final response;
if that response is empty it returns the synthesized incomplete-task message,
which ends with the last feedback, and the run does not raise on this path. -/
theorem C8_forced_final_critique (c : Collaborators) (max_iterations : Nat) (co : CritiqueOutput)
    (hex : (orch_loop c max_iterations max_iterations 0 none none none).exit =
      Except.ok LoopExit.exhausted)
    (hfc : c.critique max_iterations "Max iterations reached"
        (py_or_opt (orch_loop c max_iterations max_iterations 0 none none none).current_plan
          "No plan available")
        (forced_tool_response max_iterations) true = Except.ok co) :
    (run_multi_agent c max_iterations).forced_critique = true ∧
    (run_multi_agent c max_iterations).forced_flag = some true ∧
    (run_multi_agent c max_iterations).forced_output = some co ∧
    (run_multi_agent c max_iterations).result = Except.ok
      (py_or (py_or co.final_response
          (synthesized_fallback max_iterations
            (orch_loop c max_iterations max_iterations 0 none none none).feedback))
        "Task completed but no final response generated") ∧
    (co.final_response = "" →
      (run_multi_agent c max_iterations).result = Except.ok
        (synthesized_fallback max_iterations
          (orch_loop c max_iterations max_iterations 0 none none none).feedback)) ∧
    (∃ s : String, synthesized_fallback max_iterations
        (orch_loop c max_iterations max_iterations 0 none none none).feedback =
      s ++ py_opt_str (orch_loop c max_iterations max_iterations 0 none none none).feedback) := by
  have hiter := orch_loop_exhausted_iterations c max_iterations max_iterations 0 none none none hex
  have hflag : decide ((orch_loop c max_iterations max_iterations 0 none none none).iterations
      ≥ max_iterations) = true := by
    rw [hiter]
    simp
  have hfc2 : c.critique (orch_loop c max_iterations max_iterations 0 none none none).iterations
      "Max iterations reached"
      (py_or_opt (orch_loop c max_iterations max_iterations 0 none none none).current_plan
        "No plan available")
      (forced_tool_response max_iterations)
      (decide ((orch_loop c max_iterations max_iterations 0 none none none).iterations
        ≥ max_iterations)) = Except.ok co := by
    rw [hflag, hiter]
    exact hfc
  have hrun : run_multi_agent c max_iterations =
      ⟨Except.ok (py_or (py_or co.final_response
          (synthesized_fallback max_iterations
            (orch_loop c max_iterations max_iterations 0 none none none).feedback))
        "Task completed but no final response generated"),
       (orch_loop c max_iterations max_iterations 0 none none none).iterations,
       true,
       some (decide ((orch_loop c max_iterations max_iterations 0 none none none).iterations
         ≥ max_iterations)),
       some co⟩ := by
    simp only [run_multi_agent]
    rw [hex, hfc2]
  refine ⟨by rw [hrun], ?_, by rw [hrun], by rw [hrun], ?_, ⟨_, rfl⟩⟩
  · rw [hrun]
    simp only [hflag]
  · intro h5
    rw [hrun]
    simp only [h5]
    have hne := synthesized_fallback_ne_empty max_iterations
      (orch_loop c max_iterations max_iterations 0 none none none).feedback
    simp [py_or, hne]

/-- C8 witness: two never-terminating iterations on concrete collaborators
whose forced critique returns an empty final response, so the synthesized
fallback with the last feedback is returned. -/
theorem C8_forced_final_critique_witness :
    (orch_loop never_terminating_collabs 2 2 0 none none none).exit =
      Except.ok LoopExit.exhausted ∧
    never_terminating_collabs.critique 2 "Max iterations reached"
        (py_or_opt (orch_loop never_terminating_collabs 2 2 0 none none none).current_plan
          "No plan available")
        (forced_tool_response 2) true = Except.ok ⟨"fb", false, "", "missing"⟩ ∧
    ((run_multi_agent never_terminating_collabs 2).forced_critique = true ∧
     (run_multi_agent never_terminating_collabs 2).forced_flag = some true ∧
     (run_multi_agent never_terminating_collabs 2).forced_output =
       some ⟨"fb", false, "", "missing"⟩ ∧
     (run_multi_agent never_terminating_collabs 2).result = Except.ok
       (py_or (py_or (CritiqueOutput.mk "fb" false "" "missing").final_response
           (synthesized_fallback 2
             (orch_loop never_terminating_collabs 2 2 0 none none none).feedback))
         "Task completed but no final response generated") ∧
     ((CritiqueOutput.mk "fb" false "" "missing").final_response = "" →
       (run_multi_agent never_terminating_collabs 2).result = Except.ok
         (synthesized_fallback 2
           (orch_loop never_terminating_collabs 2 2 0 none none none).feedback)) ∧
     (∃ s : String, synthesized_fallback 2
         (orch_loop never_terminating_collabs 2 2 0 none none none).feedback =
       s ++ py_opt_str (orch_loop never_terminating_collabs 2 2 0 none none none).feedback)) :=
  ⟨rfl, rfl, C8_forced_final_critique never_terminating_collabs 2 ⟨"fb", false, "", "missing"⟩
    rfl rfl⟩

/-- When the planner and critique collaborators always succeed and the
critique never terminates, every loop pass completes — whatever the browser
collaborator does — and the loop exhausts its fuel. -/
theorem orch_loop_total (c : Collaborators) (mi : Nat)
    (hp : ∀ i fb misi, ∃ po, c.planner i fb misi = Except.ok po)
    (hc : ∀ i cs pl tr fl, ∃ co, c.critique i cs pl tr fl = Except.ok co ∧
      co.terminate = false) :
    ∀ fuel iteration fb misi plan,
      (orch_loop c mi fuel iteration fb misi plan).exit = Except.ok LoopExit.exhausted ∧
      (orch_loop c mi fuel iteration fb misi plan).iterations = fuel := by
  intro fuel
  induction fuel with
  | zero => intro _ _ _ _; simp [orch_loop]
  | succ f ih =>
    intro iteration fb misi plan
    obtain ⟨po, hpo⟩ := hp (iteration + 1) fb misi
    obtain ⟨co, hco, hterm⟩ := hc (iteration + 1) po.next_step po.plan
      (run_browser_agent c (iteration + 1) po.plan po.next_step)
      (decide (iteration + 1 ≥ mi))
    have hi : orch_iteration c mi (iteration + 1) fb misi plan =
        Except.ok (co,
          if py_falsy_opt plan || (iteration + 1) == 1 then some po.plan else plan) := by
      simp [orch_iteration, hpo, hco]
    have hrest := ih (iteration + 1) (some co.feedback) (some co.missing_information)
      (if py_falsy_opt plan || (iteration + 1) == 1 then some po.plan else plan)
    rw [orch_loop, hi]
    simp [hterm]
    simpa using hrest

/-- C9 (amended): an Act (browser agent) error is caught inside the iteration
and surfaced as the tool response string passed to the critique, and the loop
continues through all `max_iterations` iterations even when the browser
fails on every iteration; a Plan or Critique collaborator error, in contrast,
propagates and terminates the run (see the counterexample). -/
theorem C9_act_errors_absorbed (c : Collaborators) (max_iterations : Nat)
    (hp : ∀ i fb misi, ∃ po, c.planner i fb misi = Except.ok po)
    (hc : ∀ i cs pl tr fl, ∃ co, c.critique i cs pl tr fl = Except.ok co ∧
      co.terminate = false) :
    (run_multi_agent c max_iterations).iterations = max_iterations ∧
    (orch_loop c max_iterations max_iterations 0 none none none).exit =
      Except.ok LoopExit.exhausted ∧
    (∀ i pl st e, c.browser i pl st = Except.error e →
      run_browser_agent c i pl st = "Browser agent execution failed: " ++ e) := by
  obtain ⟨hex, hiter⟩ := orch_loop_total c max_iterations hp hc max_iterations 0 none none none
  refine ⟨?_, hex, ?_⟩
  · rw [run_multi_agent_iterations, hiter]
  · intro i pl st e he
    simp [run_browser_agent, he]

/-- C9 witness: collaborators whose browser raises on every call while planner
and critique succeed; the run still performs all 3 iterations. -/
theorem C9_act_errors_absorbed_witness :
    (∀ i fb misi, ∃ po, act_failing_collabs.planner i fb misi = Except.ok po) ∧
    (∀ i cs pl tr fl, ∃ co, act_failing_collabs.critique i cs pl tr fl = Except.ok co ∧
      co.terminate = false) ∧
    ((run_multi_agent act_failing_collabs 3).iterations = 3 ∧
     (orch_loop act_failing_collabs 3 3 0 none none none).exit =
       Except.ok LoopExit.exhausted ∧
     (∀ i pl st e, act_failing_collabs.browser i pl st = Except.error e →
       run_browser_agent act_failing_collabs i pl st =
         "Browser agent execution failed: " ++ e)) :=
  ⟨fun _ _ _ => ⟨⟨"plan", "step"⟩, rfl⟩,
   fun _ _ _ _ _ => ⟨⟨"fb", false, "", "missing"⟩, rfl, rfl⟩,
   C9_act_errors_absorbed act_failing_collabs 3
     (fun _ _ _ => ⟨⟨"plan", "step"⟩, rfl⟩)
     (fun _ _ _ _ _ => ⟨⟨"fb", false, "", "missing"⟩, rfl, rfl⟩)⟩

/-- C9 counterexample: a planner (Plan collaborator) error at iteration 1 is
not surfaced as a failed iteration — the whole run raises immediately and the
loop performs only 1 of the 3 allowed iterations. -/
theorem C9_counterexample :
    (run_multi_agent plan_failing_collabs 3).result = Except.error "planner agent failed" ∧
    (run_multi_agent plan_failing_collabs 3).iterations = 1 ∧
    (1 : Nat) < 3 :=
  ⟨rfl, rfl, by decide⟩

end Jarvis
